import Mathlib

/-!
Verification of the bounded sequential tool-calling orchestrator of the
ragchatbot repository (backend/ai_generator.py), together with the
retrieval-tool contract it calls into.

The Python code is shallowly embedded: the Anthropic client is modelled as a
pure stream of provider responses (`provider : Nat → Response`, call `n`
returning the `n`-th response), `tool_manager.execute_tool` as a function into
`Except String String` (`Except.error e` models a raised exception with text
`e`), and `AIGenerator.generate_response` / `_handle_tool_execution` as pure
functions that additionally record the full trace of provider requests and
tool executions, so that call counts, schema offering and message growth are
all observable.
-/

/-- A content segment of a provider response turn: a text block, or a tool
invocation block carrying the provider-assigned correlation id, the tool name
and the keyword arguments (backend/ai_generator.py reads `content_block.type`,
`.id`, `.name`, `.input`, and `hasattr(content_block, "text")`; only text
blocks carry a `text` attribute). -/
inductive ContentBlock where
  | text (s : String)
  | tool_use (id : String) (name : String) (input : List (String × String))
deriving DecidableEq

/-- A provider response: its stop reason and its ordered content segments. -/
structure Response where
  stop_reason : String
  content : List ContentBlock
deriving DecidableEq

/-- One tool result dict as built in `_handle_tool_execution`
(`{"type": "tool_result", "tool_use_id": ..., "content": ..., "is_error"?: True}`);
an absent `is_error` key is modelled as `false`. -/
structure ToolResult where
  tool_use_id : String
  content : String
  is_error : Bool
deriving DecidableEq

/-- The content of one conversation message: the initial user query text, an
assistant turn holding the provider response content, or a user turn holding a
round's tool results. -/
inductive MessageContent where
  | text (s : String)
  | blocks (bs : List ContentBlock)
  | results (rs : List ToolResult)
deriving DecidableEq

/-- One conversation message (`{"role": ..., "content": ...}`). -/
structure Message where
  role : String
  content : MessageContent
deriving DecidableEq

/-- The parameters of one `client.messages.create` call that the claims are
about: the message list, the system string, and the `tools` / `tool_choice`
entries (`none` models the key being absent from the dict; the fixed
`model`, `temperature`, `max_tokens` entries of `base_params` carry no
state and are omitted). -/
structure ApiRequest where
  messages : List Message
  system : String
  tools : Option (List String)
  tool_choice : Option String
deriving DecidableEq

/-- `tool_manager.execute_tool(name, **input)`: `Except.ok r` models a normal
return of `r`, `Except.error e` models a raised exception whose `str` is `e`. -/
def ToolManager : Type := String → List (String × String) → Except String String

/-- The tool-invocation blocks of a response content list, in order
(the blocks with `content_block.type == "tool_use"`). -/
structure ToolUse where
  id : String
  name : String
  input : List (String × String)
deriving DecidableEq

def tool_use_blocks : List ContentBlock → List ToolUse
  | [] => []
  | ContentBlock.text _ :: rest => tool_use_blocks rest
  | ContentBlock.tool_use i n inp :: rest => ⟨i, n, inp⟩ :: tool_use_blocks rest

/-- What one tool invocation contributes to the round's result list: the
`try`/`except` body of the loop in `_handle_tool_execution` (lines 132-150). -/
def tool_step (tool_manager : ToolManager) (t : ToolUse) : ToolResult :=
  match tool_manager t.name t.input with
  | Except.ok r => { tool_use_id := t.id, content := r, is_error := false }
  | Except.error e =>
      { tool_use_id := t.id, content := "Error executing tool: " ++ e, is_error := true }

/-- The `for content_block in current_response.content` loop of
`_handle_tool_execution` (lines 129-150): every `tool_use` block is executed,
a raised exception is converted into an error-flagged result. -/
def run_tools (tool_manager : ToolManager) : List ContentBlock → List ToolResult
  | [] => []
  | ContentBlock.text _ :: rest => run_tools tool_manager rest
  | ContentBlock.tool_use i n inp :: rest =>
      (match tool_manager n inp with
        | Except.ok r => { tool_use_id := i, content := r, is_error := false }
        | Except.error e =>
            { tool_use_id := i, content := "Error executing tool: " ++ e, is_error := true })
      :: run_tools tool_manager rest

/-- Lines 152-154 of `_handle_tool_execution`: `if tool_results:` append all of
the round's results as one combined user message. -/
def append_tool_results (messages : List Message) (tool_results : List ToolResult) :
    List Message :=
  if tool_results.isEmpty then messages
  else messages ++ [⟨"user", MessageContent.results tool_results⟩]

/-- Lines 184-191 of `_handle_tool_execution`: return the `text` of the first
content block that has one, else the fallback string. -/
def extract_text : List ContentBlock → String
  | [] => "Unable to generate response."
  | ContentBlock.text s :: _ => s
  | ContentBlock.tool_use _ _ _ :: rest => extract_text rest

/-- Line 98 of `generate_response`: `return response.content[0].text`. `none`
models the uncaught Python exception raised there when the content list is
empty (IndexError) or its first block is not a text block (AttributeError). -/
def content_head_text : List ContentBlock → Option String
  | ContentBlock.text s :: _ => some s
  | _ => none

/-- The text of the first textual content segment of a turn, if any
(specification-side notion used to state the extraction claims). -/
def first_text (content : List ContentBlock) : Option String :=
  (content.filterMap fun b => match b with
    | ContentBlock.text s => some s
    | ContentBlock.tool_use _ _ _ => none).head?

/-- The static system prompt `AIGenerator.SYSTEM_PROMPT` (lines 8-41),
verbatim. -/
def SYSTEM_PROMPT : String := " You are an AI assistant specialized in course materials and educational content with access to comprehensive tools for course information.\n\nAvailable Tools:\n1. **search_course_content**: Search for specific course content and detailed educational materials\n2. **get_course_outline**: Retrieve course outline showing course title, course link, and all lessons with their numbers and titles\n\nTool Usage Guidelines:\n- Use **search_course_content** for questions about specific course content or detailed educational materials\n- Use **get_course_outline** for questions about course structure, lesson list, course overview, or table of contents\n- **You may make up to 2 sequential tool calls** if the first tool's results indicate more information is needed\n- Use sequential calls when:\n  * Initial search returns partial information requiring broader/narrower context\n  * Need to check multiple courses or lessons sequentially\n  * First tool reveals need for different search parameters\n- Synthesize all tool results into accurate, fact-based responses\n- If tools yield no results, state this clearly without offering alternatives\n\nResponse Protocol:\n- **General knowledge questions**: Answer using existing knowledge without using tools\n- **Course content questions**: Use search_course_content tool, then answer\n- **Course outline/structure questions**: Use get_course_outline tool, then provide the course title, course link, and formatted lesson list\n- **Complex queries**: Make initial tool call, evaluate results, make second call if needed to provide complete answer\n- **No meta-commentary**:\n - Provide direct answers only — no reasoning process, tool explanations, or question-type analysis\n - Do not mention \"based on the tool results\" or \"I made two searches\"\n\n\nAll responses must be:\n1. **Brief, Concise and focused** - Get to the point quickly\n2. **Educational** - Maintain instructional value\n3. **Clear** - Use accessible language\n4. **Example-supported** - Include relevant examples when they aid understanding\nProvide only the direct answer to what was asked.\n"

/-- Lines 71-76 of `generate_response`: the system content. In Python the
guard is the truthiness of `conversation_history : Optional[str]`, so both
`None` and the empty string select the bare prompt. -/
def build_system_content (conversation_history : Option String) : String :=
  match conversation_history with
  | some h =>
      if h = "" then SYSTEM_PROMPT
      else SYSTEM_PROMPT ++ "\n\nPrevious conversation:\n" ++ h
  | none => SYSTEM_PROMPT

/-- Lines 79-88 of `generate_response`: the initial api_params. `if tools:`
is Python truthiness of an optional list, so `None` and `[]` both omit the
`tools` and `tool_choice` keys. -/
def initial_request (query : String) (conversation_history : Option String)
    (tools : Option (List String)) : ApiRequest :=
  let tools_offered : Bool := match tools with
    | some ts => !ts.isEmpty
    | none => false
  { messages := [⟨"user", MessageContent.text query⟩],
    system := build_system_content conversation_history,
    tools := if tools_offered then tools else none,
    tool_choice := if tools_offered then some "auto" else none }

/-- What the tool-execution run of one query produces: the response the loop
exited with, the final message list, the follow-up requests made (one per
executed tool round, in order), and every tool invocation dispatched to the
tool manager, in dispatch order. -/
structure LoopOut where
  final_response : Response
  messages : List Message
  requests : List ApiRequest
  execs : List ToolUse
deriving DecidableEq

/-- The `while` loop of `_handle_tool_execution` (lines 127-182).

The loop condition is `current_response.stop_reason == "tool_use" and
current_round <= MAX_TOOL_ROUNDS`; `current_round` starts at 1 and is
incremented exactly when a follow-up response again requests tools, so the
value `max_tool_rounds + 1 - current_round` strictly decreases across
iterations. The structural `fuel` argument is exactly that value at every
reachable call (the entry point below passes `fuel = max_tool_rounds`,
`current_round = 1`); at `fuel = 0` we have `current_round > max_tool_rounds`,
so the fuel-exhausted branch returns the same state the loop condition's
failure would, and the embedding agrees with the Python loop everywhere.
`call_index` numbers the provider calls (`provider 0` was consumed by
`generate_response`). -/
def tool_loop (provider : Nat → Response) (tool_manager : ToolManager)
    (base : ApiRequest) (max_tool_rounds : Nat) :
    Nat → Nat → Nat → List Message → Response → LoopOut
  | 0, _, _, messages, current_response =>
      { final_response := current_response, messages := messages,
        requests := [], execs := [] }
  | fuel + 1, current_round, call_index, messages, current_response =>
      if current_response.stop_reason = "tool_use" ∧ current_round ≤ max_tool_rounds then
        let tool_results := run_tools tool_manager current_response.content
        let messages1 := append_tool_results messages tool_results
        let follow_up : ApiRequest :=
          if current_round < max_tool_rounds then
            { messages := messages1, system := base.system,
              tools := base.tools, tool_choice := some "auto" }
          else
            { messages := messages1, system := base.system,
              tools := none, tool_choice := none }
        let next_response := provider call_index
        if next_response.stop_reason = "tool_use" then
          let rest := tool_loop provider tool_manager base max_tool_rounds fuel
            (current_round + 1) (call_index + 1)
            (messages1 ++ [⟨"assistant", MessageContent.blocks next_response.content⟩])
            next_response
          { final_response := rest.final_response, messages := rest.messages,
            requests := follow_up :: rest.requests,
            execs := tool_use_blocks current_response.content ++ rest.execs }
        else
          { final_response := next_response, messages := messages1,
            requests := [follow_up],
            execs := tool_use_blocks current_response.content }
      else
        { final_response := current_response, messages := messages,
          requests := [], execs := [] }

/-- The observable outcome of one `generate_response` call: the returned
string (`none` models an uncaught Python exception on the direct-return
path), every provider request in call order (the initial one first), the
final message list, the response the call ended on, the number of executed
tool rounds, and every tool invocation dispatched. -/
structure GenResult where
  result : Option String
  requests : List ApiRequest
  final_messages : List Message
  final_response : Response
  tool_rounds : Nat
  tool_execs : List ToolUse
deriving DecidableEq

/-- `AIGenerator.generate_response` (lines 54-98) together with
`_handle_tool_execution` (lines 100-191). `max_tool_rounds` is
`config.MAX_TOOL_ROUNDS` (line 115; the configuration default is 2).
A tool round is one iteration of the loop; each makes exactly one follow-up
provider call, so `tool_rounds` equals the number of follow-up requests. -/
def generate_response (provider : Nat → Response) (query : String)
    (conversation_history : Option String) (tools : Option (List String))
    (tool_manager : Option ToolManager) (max_tool_rounds : Nat) : GenResult :=
  let api_params := initial_request query conversation_history tools
  let response := provider 0
  match tool_manager with
  | some tm =>
      if response.stop_reason = "tool_use" then
        let messages := api_params.messages
          ++ [⟨"assistant", MessageContent.blocks response.content⟩]
        let out := tool_loop provider tm api_params max_tool_rounds
          max_tool_rounds 1 1 messages response
        { result := some (extract_text out.final_response.content),
          requests := api_params :: out.requests,
          final_messages := out.messages,
          final_response := out.final_response,
          tool_rounds := out.requests.length,
          tool_execs := out.execs }
      else
        { result := content_head_text response.content,
          requests := [api_params],
          final_messages := api_params.messages,
          final_response := response,
          tool_rounds := 0,
          tool_execs := [] }
  | none =>
      { result := content_head_text response.content,
        requests := [api_params],
        final_messages := api_params.messages,
        final_response := response,
        tool_rounds := 0,
        tool_execs := [] }

/-! Concrete fixtures used by witnesses and counterexamples, mirroring the
scenarios of backend/tests/test_ai_generator.py. -/

def tool_block_one : ContentBlock :=
  ContentBlock.tool_use "tool_1" "search_course_content" [("query", "MCP basics")]

def tool_block_two : ContentBlock :=
  ContentBlock.tool_use "tool_2" "search_course_content"
    [("query", "MCP architecture details")]

/-- Two tool-use responses, then a text answer (the two-round scenario). -/
def two_round_provider : Nat → Response
  | 0 => ⟨"tool_use", [tool_block_one]⟩
  | 1 => ⟨"tool_use", [tool_block_two]⟩
  | _ => ⟨"end_turn",
      [ContentBlock.text "MCP is Model Context Protocol with client-server architecture."]⟩

/-- A provider that requests tools on every response. -/
def greedy_provider : Nat → Response :=
  fun n =>
    ⟨"tool_use",
      [ContentBlock.tool_use ("tool_" ++ toString (n + 1)) "search_course_content"
        [("query", "more")]]⟩

/-- A provider whose only response is terminal text. -/
def direct_provider : Nat → Response :=
  fun _ => ⟨"end_turn", [ContentBlock.text "This is a direct answer without using tools."]⟩

/-- A terminal first response whose first content segment is not textual. -/
def nontext_first_provider : Nat → Response :=
  fun _ => ⟨"end_turn",
    [ContentBlock.tool_use "toolu_1" "search_course_content" [("query", "x")],
     ContentBlock.text "hello"]⟩

def ok_tool_manager : ToolManager := fun _ _ => Except.ok "Search result"

def failing_tool_manager : ToolManager :=
  fun _ _ => Except.error "Database connection failed"

example :
    (generate_response two_round_provider "q" none (some ["search_course_content"])
      (some ok_tool_manager) 2).result
      = some "MCP is Model Context Protocol with client-server architecture." := by
  rfl

example :
    (generate_response greedy_provider "q" none (some ["search_course_content"])
      (some ok_tool_manager) 2).requests.length = 3 := by
  rfl

/-! Helper lemmas about the embedded definitions. -/

theorem run_tools_eq_map (tool_manager : ToolManager) :
    ∀ content : List ContentBlock,
      run_tools tool_manager content
        = (tool_use_blocks content).map (tool_step tool_manager) := by
  intro content
  induction content with
  | nil => rfl
  | cons b rest ih =>
      cases b with
      | text s => simpa [run_tools, tool_use_blocks] using ih
      | tool_use i n inp =>
          simp only [run_tools, tool_use_blocks, List.map_cons, tool_step]
          exact congrArg _ ih

theorem extract_text_eq_first_text :
    ∀ content : List ContentBlock,
      extract_text content = (first_text content).getD "Unable to generate response." := by
  intro content
  induction content with
  | nil => rfl
  | cons b rest ih =>
      cases b with
      | text s => rfl
      | tool_use i n inp => simpa [extract_text, first_text, List.filterMap] using ih

theorem tool_loop_requests_length_le (provider : Nat → Response)
    (tool_manager : ToolManager) (base : ApiRequest) (max_tool_rounds : Nat) :
    ∀ (fuel current_round call_index : Nat) (messages : List Message) (cur : Response),
      (tool_loop provider tool_manager base max_tool_rounds fuel current_round
        call_index messages cur).requests.length ≤ fuel := by
  intro fuel
  induction fuel with
  | zero => intro c k msgs cur; simp [tool_loop]
  | succ n ih =>
      intro c k msgs cur
      simp only [tool_loop]
      split
      · split
        · simpa using ih (c + 1) (k + 1) _ _
        · simp
      · simp

/-- The loop state and trace that `generate_response` hands to the tool loop
once the first response requested tools. -/
def tool_path_out (provider : Nat → Response) (tm : ToolManager) (query : String)
    (conversation_history : Option String) (tools : Option (List String))
    (max_tool_rounds : Nat) : LoopOut :=
  tool_loop provider tm (initial_request query conversation_history tools)
    max_tool_rounds max_tool_rounds 1 1
    ((initial_request query conversation_history tools).messages
      ++ [⟨"assistant", MessageContent.blocks (provider 0).content⟩])
    (provider 0)

theorem generate_response_tool_use_eq (provider : Nat → Response) (query : String)
    (conversation_history : Option String) (tools : Option (List String))
    (tm : ToolManager) (max_tool_rounds : Nat)
    (h : (provider 0).stop_reason = "tool_use") :
    generate_response provider query conversation_history tools (some tm) max_tool_rounds
      = { result := some (extract_text
            (tool_path_out provider tm query conversation_history tools
              max_tool_rounds).final_response.content),
          requests := initial_request query conversation_history tools
            :: (tool_path_out provider tm query conversation_history tools
              max_tool_rounds).requests,
          final_messages := (tool_path_out provider tm query conversation_history tools
            max_tool_rounds).messages,
          final_response := (tool_path_out provider tm query conversation_history tools
            max_tool_rounds).final_response,
          tool_rounds := (tool_path_out provider tm query conversation_history tools
            max_tool_rounds).requests.length,
          tool_execs := (tool_path_out provider tm query conversation_history tools
            max_tool_rounds).execs } := by
  simp [generate_response, tool_path_out, h]

theorem generate_response_direct_none (provider : Nat → Response) (query : String)
    (conversation_history : Option String) (tools : Option (List String))
    (max_tool_rounds : Nat) :
    generate_response provider query conversation_history tools none max_tool_rounds
      = { result := content_head_text (provider 0).content,
          requests := [initial_request query conversation_history tools],
          final_messages := (initial_request query conversation_history tools).messages,
          final_response := provider 0,
          tool_rounds := 0,
          tool_execs := [] } := by
  simp [generate_response]

theorem generate_response_direct_no_tool_use (provider : Nat → Response) (query : String)
    (conversation_history : Option String) (tools : Option (List String))
    (tm : ToolManager) (max_tool_rounds : Nat)
    (h : (provider 0).stop_reason ≠ "tool_use") :
    generate_response provider query conversation_history tools (some tm) max_tool_rounds
      = { result := content_head_text (provider 0).content,
          requests := [initial_request query conversation_history tools],
          final_messages := (initial_request query conversation_history tools).messages,
          final_response := provider 0,
          tool_rounds := 0,
          tool_execs := [] } := by
  simp [generate_response, h]

/-- The `(tools, tool_choice)` entries the loop sends on successive follow-up
calls, as a function of the first round number covered and how many follow-up
calls happen: round `c + i` keeps the base tools exactly while it is below the
round cap. -/
def tool_schedule (base_tools : Option (List String)) (max_tool_rounds : Nat) :
    Nat → Nat → List (Option (List String) × Option String)
  | _, 0 => []
  | c, m + 1 =>
      (if c < max_tool_rounds then (base_tools, some "auto")
        else (none, none))
        :: tool_schedule base_tools max_tool_rounds (c + 1) m

theorem tool_schedule_getElem? (base_tools : Option (List String))
    (max_tool_rounds : Nat) :
    ∀ (m c i : Nat),
      (tool_schedule base_tools max_tool_rounds c m)[i]?
        = if i < m then
            some (if c + i < max_tool_rounds then (base_tools, some "auto")
              else (none, none))
          else none := by
  intro m
  induction m with
  | zero => intro c i; simp [tool_schedule]
  | succ n ih =>
      intro c i
      cases i with
      | zero => simp [tool_schedule]
      | succ j =>
          simp only [tool_schedule, List.getElem?_cons_succ, ih (c + 1) j,
            Nat.succ_lt_succ_iff]
          have harith : c + 1 + j = c + (j + 1) := by omega
          rw [harith]

theorem tool_loop_requests_pairs (provider : Nat → Response)
    (tool_manager : ToolManager) (base : ApiRequest) (max_tool_rounds : Nat) :
    ∀ (fuel current_round call_index : Nat) (messages : List Message) (cur : Response),
      ((tool_loop provider tool_manager base max_tool_rounds fuel current_round
          call_index messages cur).requests.map fun r => (r.tools, r.tool_choice))
        = tool_schedule base.tools max_tool_rounds current_round
            (tool_loop provider tool_manager base max_tool_rounds fuel current_round
              call_index messages cur).requests.length := by
  intro fuel
  induction fuel with
  | zero => intro c k msgs cur; simp [tool_loop, tool_schedule]
  | succ n ih =>
      intro c k msgs cur
      simp only [tool_loop]
      split
      · split
        · simp only [List.map_cons, List.length_cons, tool_schedule, ih (c + 1) (k + 1)]
          split <;> simp
        · simp only [List.map_cons, List.map_nil, List.length_cons, List.length_nil,
            tool_schedule]
          split <;> simp
      · simp [tool_schedule]

theorem prefix_append_tool_results (messages : List Message)
    (tool_results : List ToolResult) :
    messages <+: append_tool_results messages tool_results := by
  unfold append_tool_results
  split
  · exact List.prefix_rfl
  · exact List.prefix_append _ _

theorem tool_loop_requests_system (provider : Nat → Response)
    (tool_manager : ToolManager) (base : ApiRequest) (max_tool_rounds : Nat) :
    ∀ (fuel current_round call_index : Nat) (messages : List Message) (cur : Response),
      ∀ r ∈ (tool_loop provider tool_manager base max_tool_rounds fuel current_round
        call_index messages cur).requests, r.system = base.system := by
  intro fuel
  induction fuel with
  | zero => intro c k msgs cur; simp [tool_loop]
  | succ n ih =>
      intro c k msgs cur
      simp only [tool_loop]
      split
      · split
        · intro r hr
          rcases List.mem_cons.mp hr with hr | hr
          · subst hr
            simp only [apply_ite ApiRequest.system, ite_self]
          · exact ih (c + 1) (k + 1) _ _ r hr
        · intro r hr
          rcases List.mem_cons.mp hr with hr | hr
          · subst hr
            simp only [apply_ite ApiRequest.system, ite_self]
          · simp at hr
      · simp

theorem tool_loop_messages_chain (provider : Nat → Response)
    (tool_manager : ToolManager) (base : ApiRequest) (max_tool_rounds : Nat) :
    ∀ (fuel current_round call_index : Nat) (messages : List Message) (cur : Response),
      List.Chain' (fun a b : ApiRequest =>
          a.messages <+: b.messages ∧ a.messages.length < b.messages.length)
        (tool_loop provider tool_manager base max_tool_rounds fuel current_round
          call_index messages cur).requests
      ∧ (∀ r0, (tool_loop provider tool_manager base max_tool_rounds fuel current_round
            call_index messages cur).requests.head? = some r0 →
          messages <+: r0.messages) := by
  intro fuel
  induction fuel with
  | zero => intro c k msgs cur; simp [tool_loop]
  | succ n ih =>
      intro c k msgs cur
      simp only [tool_loop]
      split
      · split
        · refine ⟨?_, ?_⟩
          · rw [List.chain'_cons']
            refine ⟨?_, (ih (c + 1) (k + 1) _ _).1⟩
            intro y hy
            have h2 := (ih (c + 1) (k + 1) _ _).2 y hy
            have hple : (append_tool_results msgs (run_tools tool_manager cur.content)
                ++ [(⟨"assistant", MessageContent.blocks (provider k).content⟩ : Message)]).length
                ≤ y.messages.length := h2.length_le
            constructor
            · simp only [apply_ite ApiRequest.messages, ite_self]
              exact (List.prefix_append _ _).trans h2
            · simp only [apply_ite ApiRequest.messages, ite_self]
              simp only [List.length_append, List.length_cons, List.length_nil] at hple
              omega
          · intro r0 hr0
            simp only [List.head?_cons, Option.some.injEq] at hr0
            subst hr0
            simp only [apply_ite ApiRequest.messages, ite_self]
            exact prefix_append_tool_results msgs _
        · refine ⟨?_, ?_⟩
          · simp
          · intro r0 hr0
            simp only [List.head?_cons, Option.some.injEq] at hr0
            subst hr0
            simp only [apply_ite ApiRequest.messages, ite_self]
            exact prefix_append_tool_results msgs _
      · simp

theorem tool_loop_execs_first_round (provider : Nat → Response)
    (tool_manager : ToolManager) (base : ApiRequest) (max_tool_rounds : Nat)
    (fuel current_round call_index : Nat) (messages : List Message) (cur : Response)
    (hcur : cur.stop_reason = "tool_use") (hc : current_round ≤ max_tool_rounds)
    (hfuel : 1 ≤ fuel) :
    tool_use_blocks cur.content
      <+: (tool_loop provider tool_manager base max_tool_rounds fuel current_round
        call_index messages cur).execs := by
  cases fuel with
  | zero => omega
  | succ n =>
      simp only [tool_loop]
      rw [if_pos (And.intro hcur hc)]
      split
      · exact List.prefix_append _ _
      · exact List.prefix_rfl

theorem tool_loop_request_tools_getElem (provider : Nat → Response)
    (tool_manager : ToolManager) (base : ApiRequest) (max_tool_rounds : Nat)
    (fuel current_round call_index : Nat) (messages : List Message) (cur : Response)
    (i : Nat)
    (hi : i < (tool_loop provider tool_manager base max_tool_rounds fuel current_round
      call_index messages cur).requests.length) :
    ((tool_loop provider tool_manager base max_tool_rounds fuel current_round
        call_index messages cur).requests[i].tools
      = if current_round + i < max_tool_rounds then base.tools else none)
    ∧ ((tool_loop provider tool_manager base max_tool_rounds fuel current_round
        call_index messages cur).requests[i].tool_choice
      = if current_round + i < max_tool_rounds then some "auto" else none) := by
  have h3 := tool_loop_requests_pairs provider tool_manager base max_tool_rounds fuel
    current_round call_index messages cur
  have h4 : ((tool_loop provider tool_manager base max_tool_rounds fuel current_round
      call_index messages cur).requests.map fun r => (r.tools, r.tool_choice))[i]?
      = (tool_schedule base.tools max_tool_rounds current_round
          (tool_loop provider tool_manager base max_tool_rounds fuel current_round
            call_index messages cur).requests.length)[i]? := by
    rw [h3]
  rw [List.getElem?_map, List.getElem?_eq_getElem hi, tool_schedule_getElem?,
    if_pos hi] at h4
  have h5 := Option.some.inj h4
  constructor
  · have h6 := congrArg Prod.fst h5
    simpa [apply_ite Prod.fst] using h6
  · have h6 := congrArg Prod.snd h5
    simpa [apply_ite Prod.snd] using h6

/-- C1: for every query whose first provider response requests tool use and
every stream of subsequent provider responses, the orchestration loop
terminates (it is embedded as a total function, mirroring that
`current_round` strictly climbs toward the cap); the number of tool-executing
rounds never exceeds the configured `max_tool_rounds`; the total number of
provider calls is always exactly one more than the number of tool rounds,
hence never exceeds `max_tool_rounds + 1`, with equality when
`max_tool_rounds` tool rounds occur. -/
theorem orchestration_round_and_call_bounds (provider : Nat → Response)
    (tm : ToolManager) (query : String) (conversation_history : Option String)
    (tools : Option (List String)) (max_tool_rounds : Nat)
    (h : (provider 0).stop_reason = "tool_use") :
    (generate_response provider query conversation_history tools (some tm)
        max_tool_rounds).tool_rounds ≤ max_tool_rounds
    ∧ (generate_response provider query conversation_history tools (some tm)
        max_tool_rounds).requests.length
      = (generate_response provider query conversation_history tools (some tm)
        max_tool_rounds).tool_rounds + 1
    ∧ (generate_response provider query conversation_history tools (some tm)
        max_tool_rounds).requests.length ≤ max_tool_rounds + 1
    ∧ ((generate_response provider query conversation_history tools (some tm)
        max_tool_rounds).tool_rounds = max_tool_rounds →
      (generate_response provider query conversation_history tools (some tm)
        max_tool_rounds).requests.length = max_tool_rounds + 1) := by
  rw [generate_response_tool_use_eq provider query conversation_history tools tm
    max_tool_rounds h]
  have hlen : (tool_path_out provider tm query conversation_history tools
      max_tool_rounds).requests.length ≤ max_tool_rounds := by
    simp only [tool_path_out]
    exact tool_loop_requests_length_le provider tm _ max_tool_rounds _ _ _ _ _
  refine ⟨hlen, by simp, ?_, ?_⟩
  · simp only [List.length_cons]
    omega
  · intro heq
    simp only [List.length_cons]
    simp only at heq
    omega

/-- Witness for C1 at a provider that requests tools on every response, with
the configured cap 2: exactly 2 tool rounds and 3 provider calls occur. -/
theorem orchestration_round_and_call_bounds_witness :
    (greedy_provider 0).stop_reason = "tool_use"
    ∧ (generate_response greedy_provider "q" none (some ["search_course_content"])
        (some ok_tool_manager) 2).tool_rounds ≤ 2
    ∧ (generate_response greedy_provider "q" none (some ["search_course_content"])
        (some ok_tool_manager) 2).tool_rounds = 2
    ∧ (generate_response greedy_provider "q" none (some ["search_course_content"])
        (some ok_tool_manager) 2).requests.length = 3 :=
  ⟨rfl,
   (orchestration_round_and_call_bounds greedy_provider ok_tool_manager "q" none
      (some ["search_course_content"]) 2 rfl).1,
   by rfl, by rfl⟩

theorem initial_request_tools_of_nonempty (query : String)
    (conversation_history : Option String) (ts : List String) (hts : ts ≠ []) :
    (initial_request query conversation_history (some ts)).tools = some ts := by
  simp [initial_request, hts]

/-- C2: in every executed round r (1-indexed) of the tool loop, the follow-up
provider call of round r carries the same tool schemas with tool_choice
"auto" when r < max_tool_rounds, and omits both the tools and the tool_choice
entries when r = max_tool_rounds; no executed round has r > max_tool_rounds.
The follow-up call of round r is request index r of the recorded trace
(index 0 being the initial call). -/
theorem follow_up_tool_schema_policy (provider : Nat → Response) (tm : ToolManager)
    (query : String) (conversation_history : Option String) (ts : List String)
    (max_tool_rounds : Nat)
    (h : (provider 0).stop_reason = "tool_use") (hts : ts ≠ []) :
    ∀ (i : Nat)
      (hi : i + 1 < (generate_response provider query conversation_history (some ts)
        (some tm) max_tool_rounds).requests.length),
      ((i + 1 < max_tool_rounds →
          (generate_response provider query conversation_history (some ts)
            (some tm) max_tool_rounds).requests[i + 1].tools = some ts
          ∧ (generate_response provider query conversation_history (some ts)
            (some tm) max_tool_rounds).requests[i + 1].tool_choice = some "auto")
        ∧ (i + 1 = max_tool_rounds →
          (generate_response provider query conversation_history (some ts)
            (some tm) max_tool_rounds).requests[i + 1].tools = none
          ∧ (generate_response provider query conversation_history (some ts)
            (some tm) max_tool_rounds).requests[i + 1].tool_choice = none)
        ∧ i + 1 ≤ max_tool_rounds) := by
  intro i hi
  have hreq := congrArg GenResult.requests
    (generate_response_tool_use_eq provider query conversation_history (some ts) tm
      max_tool_rounds h)
  have hi' : i < (tool_path_out provider tm query conversation_history (some ts)
      max_tool_rounds).requests.length := by
    rw [hreq] at hi
    simpa using hi
  have hlen : (tool_path_out provider tm query conversation_history (some ts)
      max_tool_rounds).requests.length ≤ max_tool_rounds := by
    simp only [tool_path_out]
    exact tool_loop_requests_length_le provider tm _ max_tool_rounds _ _ _ _ _
  have hbridge : (generate_response provider query conversation_history (some ts)
      (some tm) max_tool_rounds).requests[i + 1]
      = (tool_path_out provider tm query conversation_history (some ts)
          max_tool_rounds).requests[i] := by
    apply Option.some.inj
    rw [← List.getElem?_eq_getElem, ← List.getElem?_eq_getElem, hreq]
    simp
  simp only [tool_path_out] at hi' hbridge hlen
  have hpair := tool_loop_request_tools_getElem provider tm
    (initial_request query conversation_history (some ts)) max_tool_rounds
    max_tool_rounds 1 1
    ((initial_request query conversation_history (some ts)).messages
      ++ [⟨"assistant", MessageContent.blocks (provider 0).content⟩])
    (provider 0) i hi'
  rw [initial_request_tools_of_nonempty query conversation_history ts hts] at hpair
  have harith : 1 + i = i + 1 := Nat.add_comm 1 i
  rw [harith] at hpair
  refine ⟨?_, ?_, ?_⟩
  · intro hlt
    rw [hbridge]
    constructor
    · rw [hpair.1, if_pos hlt]
    · rw [hpair.2, if_pos hlt]
  · intro heqM
    have hnlt : ¬ i + 1 < max_tool_rounds := by omega
    rw [hbridge]
    constructor
    · rw [hpair.1, if_neg hnlt]
    · rw [hpair.2, if_neg hnlt]
  · omega

/-- Witness for C2 with the greedy provider and cap 2: the round-1 follow-up
still offers the schemas with tool_choice auto, the round-2 follow-up omits
both entries. -/
theorem follow_up_tool_schema_policy_witness :
    (greedy_provider 0).stop_reason = "tool_use"
    ∧ (["search_course_content"] : List String) ≠ []
    ∧ (generate_response greedy_provider "q" none (some ["search_course_content"])
        (some ok_tool_manager) 2).requests.length = 3
    ∧ (generate_response greedy_provider "q" none (some ["search_course_content"])
        (some ok_tool_manager) 2).requests[1].tools = some ["search_course_content"]
    ∧ (generate_response greedy_provider "q" none (some ["search_course_content"])
        (some ok_tool_manager) 2).requests[1].tool_choice = some "auto"
    ∧ (generate_response greedy_provider "q" none (some ["search_course_content"])
        (some ok_tool_manager) 2).requests[2].tools = none
    ∧ (generate_response greedy_provider "q" none (some ["search_course_content"])
        (some ok_tool_manager) 2).requests[2].tool_choice = none := by
  refine ⟨rfl, by decide, by rfl, ?_, ?_, ?_, ?_⟩
  · exact ((follow_up_tool_schema_policy greedy_provider ok_tool_manager "q" none
      ["search_course_content"] 2 rfl (by decide) 0 (by decide)).1 (by decide)).1
  · exact ((follow_up_tool_schema_policy greedy_provider ok_tool_manager "q" none
      ["search_course_content"] 2 rfl (by decide) 0 (by decide)).1 (by decide)).2
  · exact ((follow_up_tool_schema_policy greedy_provider ok_tool_manager "q" none
      ["search_course_content"] 2 rfl (by decide) 1 (by decide)).2.1 (by rfl)).1
  · exact ((follow_up_tool_schema_policy greedy_provider ok_tool_manager "q" none
      ["search_course_content"] 2 rfl (by decide) 1 (by decide)).2.1 (by rfl)).2

/-- C5: the conversation message list is append-only — in every run, the
message list passed at each provider call is a strict prefix of the message
list passed at the next call — and the concrete two-tool-round run followed
by a text answer produces exactly the 5-turn sequence user, assistant(tool),
user(result), assistant(tool), user(result), with correlation ids tool_1 and
tool_2 matched to their result turns. -/
theorem conversation_append_only :
    (∀ (provider : Nat → Response) (query : String)
        (conversation_history : Option String) (tools : Option (List String))
        (tool_manager : Option ToolManager) (max_tool_rounds : Nat),
      List.Chain' (fun a b : ApiRequest =>
          a.messages <+: b.messages ∧ a.messages.length < b.messages.length)
        (generate_response provider query conversation_history tools tool_manager
          max_tool_rounds).requests)
    ∧ ((generate_response two_round_provider "q" none (some ["search_course_content"])
        (some ok_tool_manager) 2).requests.map ApiRequest.messages
      = [[⟨"user", MessageContent.text "q"⟩],
         [⟨"user", MessageContent.text "q"⟩,
          ⟨"assistant", MessageContent.blocks [tool_block_one]⟩,
          ⟨"user", MessageContent.results [⟨"tool_1", "Search result", false⟩]⟩],
         [⟨"user", MessageContent.text "q"⟩,
          ⟨"assistant", MessageContent.blocks [tool_block_one]⟩,
          ⟨"user", MessageContent.results [⟨"tool_1", "Search result", false⟩]⟩,
          ⟨"assistant", MessageContent.blocks [tool_block_two]⟩,
          ⟨"user", MessageContent.results [⟨"tool_2", "Search result", false⟩]⟩]])
    ∧ (generate_response two_round_provider "q" none (some ["search_course_content"])
        (some ok_tool_manager) 2).final_messages
      = [⟨"user", MessageContent.text "q"⟩,
         ⟨"assistant", MessageContent.blocks [tool_block_one]⟩,
         ⟨"user", MessageContent.results [⟨"tool_1", "Search result", false⟩]⟩,
         ⟨"assistant", MessageContent.blocks [tool_block_two]⟩,
         ⟨"user", MessageContent.results [⟨"tool_2", "Search result", false⟩]⟩] := by
  refine ⟨?_, by rfl, by rfl⟩
  intro provider query conversation_history tools tool_manager max_tool_rounds
  match tool_manager with
  | none =>
      rw [generate_response_direct_none]
      simp
  | some tm =>
      by_cases h : (provider 0).stop_reason = "tool_use"
      · rw [generate_response_tool_use_eq provider query conversation_history tools tm
          max_tool_rounds h]
        simp only [tool_path_out]
        rw [List.chain'_cons']
        have hchain := tool_loop_messages_chain provider tm
          (initial_request query conversation_history tools) max_tool_rounds
          max_tool_rounds 1 1
          ((initial_request query conversation_history tools).messages
            ++ [⟨"assistant", MessageContent.blocks (provider 0).content⟩])
          (provider 0)
        refine ⟨?_, hchain.1⟩
        intro y hy
        have h2 := hchain.2 y hy
        have h3 := h2.length_le
        constructor
        · exact (List.prefix_append _ _).trans h2
        · simp only [List.length_append, List.length_cons, List.length_nil] at h3
          omega
      · rw [generate_response_direct_no_tool_use provider query conversation_history
          tools tm max_tool_rounds h]
        simp

theorem tool_step_id (tool_manager : ToolManager) (t : ToolUse) :
    (tool_step tool_manager t).tool_use_id = t.id := by
  unfold tool_step
  split <;> rfl

/-- C3: every tool invocation block of an assistant turn is executed; when
the tool raises, the orchestrator converts the exception into a tool result
whose content is exactly "Error executing tool: " followed by the exception
text and whose error flag is set; the remaining invocations of the round are
still executed (every block contributes exactly one result, in order), and no
exception from tool dispatch escapes: the orchestrated call always returns a
string. -/
theorem tool_error_containment :
    (∀ (tool_manager : ToolManager) (content : List ContentBlock),
        run_tools tool_manager content
          = (tool_use_blocks content).map (tool_step tool_manager))
    ∧ (∀ (tool_manager : ToolManager) (t : ToolUse) (e : String),
        tool_manager t.name t.input = Except.error e →
          tool_step tool_manager t
            = { tool_use_id := t.id, content := "Error executing tool: " ++ e,
                is_error := true })
    ∧ (∀ (provider : Nat → Response) (tm : ToolManager) (query : String)
        (conversation_history : Option String) (tools : Option (List String))
        (max_tool_rounds : Nat),
        (provider 0).stop_reason = "tool_use" →
          ((generate_response provider query conversation_history tools (some tm)
            max_tool_rounds).result).isSome = true) := by
  refine ⟨run_tools_eq_map, ?_, ?_⟩
  · intro tool_manager t e he
    simp [tool_step, he]
  · intro provider tm query conversation_history tools max_tool_rounds h
    rw [generate_response_tool_use_eq provider query conversation_history tools tm
      max_tool_rounds h]
    rfl

/-- Witness for C3: a tool manager that raises on every call yields the
error-flagged result with the exact message, and the query still returns a
string. -/
theorem tool_error_containment_witness :
    failing_tool_manager "search_course_content" [("query", "MCP basics")]
        = Except.error "Database connection failed"
    ∧ tool_step failing_tool_manager
        ⟨"tool_1", "search_course_content", [("query", "MCP basics")]⟩
      = { tool_use_id := "tool_1",
          content := "Error executing tool: Database connection failed",
          is_error := true }
    ∧ run_tools failing_tool_manager [tool_block_one, tool_block_two]
      = [⟨"tool_1", "Error executing tool: Database connection failed", true⟩,
         ⟨"tool_2", "Error executing tool: Database connection failed", true⟩]
    ∧ ((generate_response two_round_provider "q" none (some ["search_course_content"])
        (some failing_tool_manager) 2).result).isSome = true :=
  ⟨rfl,
   tool_error_containment.2.1 failing_tool_manager
     ⟨"tool_1", "search_course_content", [("query", "MCP basics")]⟩
     "Database connection failed" rfl,
   by rfl,
   tool_error_containment.2.2 two_round_provider failing_tool_manager "q" none
     (some ["search_course_content"]) 2 rfl⟩

/-- C6: within a round, all tool results are appended as one combined user
turn; the results carry the correlation ids of the round's tool-use blocks in
the same order, and when the pending invocation ids are distinct each
result's id matches exactly one pending invocation of the preceding
assistant turn. -/
theorem round_results_single_turn_order :
    (∀ (tool_manager : ToolManager) (content : List ContentBlock)
        (messages : List Message),
        tool_use_blocks content ≠ [] →
          append_tool_results messages (run_tools tool_manager content)
            = messages
              ++ [⟨"user", MessageContent.results (run_tools tool_manager content)⟩])
    ∧ (∀ (tool_manager : ToolManager) (content : List ContentBlock),
        (run_tools tool_manager content).map ToolResult.tool_use_id
          = (tool_use_blocks content).map ToolUse.id)
    ∧ (∀ (tool_manager : ToolManager) (content : List ContentBlock),
        ((tool_use_blocks content).map ToolUse.id).Nodup →
          ∀ res ∈ run_tools tool_manager content,
            ((tool_use_blocks content).map ToolUse.id).count res.tool_use_id = 1) := by
  have hids : ∀ (tool_manager : ToolManager) (content : List ContentBlock),
      (run_tools tool_manager content).map ToolResult.tool_use_id
        = (tool_use_blocks content).map ToolUse.id := by
    intro tool_manager content
    rw [run_tools_eq_map, List.map_map]
    simp only [Function.comp_def, tool_step_id]
  refine ⟨?_, hids, ?_⟩
  · intro tool_manager content messages hne
    have hfalse : (run_tools tool_manager content).isEmpty = false := by
      rw [run_tools_eq_map]
      cases hbl : tool_use_blocks content with
      | nil => exact absurd hbl hne
      | cons a l => simp
    simp [append_tool_results, hfalse]
  · intro tool_manager content hnodup res hres
    have hid : res.tool_use_id ∈ (tool_use_blocks content).map ToolUse.id := by
      rw [run_tools_eq_map] at hres
      rcases List.mem_map.mp hres with ⟨t, ht, rfl⟩
      exact List.mem_map.mpr ⟨t, ht, (tool_step_id tool_manager t).symm⟩
    exact List.count_eq_one_of_mem hnodup hid

/-- Witness for C6: a two-invocation round appends the two results as one
combined user turn, ids tool_1 and tool_2 in invocation order, each matching
exactly one invocation. -/
theorem round_results_single_turn_order_witness :
    tool_use_blocks [tool_block_one, tool_block_two] ≠ []
    ∧ append_tool_results [⟨"user", MessageContent.text "q"⟩]
        (run_tools ok_tool_manager [tool_block_one, tool_block_two])
      = [⟨"user", MessageContent.text "q"⟩]
        ++ [⟨"user", MessageContent.results
              (run_tools ok_tool_manager [tool_block_one, tool_block_two])⟩]
    ∧ (run_tools ok_tool_manager [tool_block_one, tool_block_two]).map
        ToolResult.tool_use_id
      = (tool_use_blocks [tool_block_one, tool_block_two]).map ToolUse.id
    ∧ ((tool_use_blocks [tool_block_one, tool_block_two]).map ToolUse.id).count
        "tool_1" = 1 := by
  refine ⟨by decide, ?_, ?_, ?_⟩
  · exact round_results_single_turn_order.1 ok_tool_manager
      [tool_block_one, tool_block_two] [⟨"user", MessageContent.text "q"⟩] (by decide)
  · exact round_results_single_turn_order.2.1 ok_tool_manager
      [tool_block_one, tool_block_two]
  · exact round_results_single_turn_order.2.2 ok_tool_manager
      [tool_block_one, tool_block_two] (by decide)
      ⟨"tool_1", "Search result", false⟩ (by decide)

/-- Counterexample to C4 as stated: with a terminal first response whose
first content segment is a tool-use block, the direct-return path
(`return response.content[0].text`) raises an uncaught AttributeError
(modelled as `none`) instead of returning the first textual segment
("hello") or the deterministic fallback. -/
theorem final_text_extraction_counterexample :
    (generate_response nontext_first_provider "q" none none none 2).result = none
    ∧ first_text ((nontext_first_provider 0).content) = some "hello"
    ∧ (generate_response nontext_first_provider "q" none none none 2).result
      ≠ some ((first_text ((nontext_first_provider 0).content)).getD
          "Unable to generate response.") := by
  refine ⟨rfl, rfl, by decide⟩

/-- C4 amended: on the tool-execution path the orchestrator returns the first
textual content segment of the final turn, and the deterministic fallback
message when no textual segment exists; on the direct-return path (tool
manager absent, or first response terminal) it returns the `text` of the
first content segment — which equals the first textual segment whenever the
first segment is textual — but raises instead of falling back when the first
segment is not textual. -/
theorem final_text_extraction_amended (provider : Nat → Response) (query : String)
    (conversation_history : Option String) (tools : Option (List String))
    (max_tool_rounds : Nat) :
    (∀ tm : ToolManager, (provider 0).stop_reason = "tool_use" →
        (generate_response provider query conversation_history tools (some tm)
          max_tool_rounds).result
        = some ((first_text (generate_response provider query conversation_history
            tools (some tm) max_tool_rounds).final_response.content).getD
          "Unable to generate response."))
    ∧ ((generate_response provider query conversation_history tools none
        max_tool_rounds).result = content_head_text ((provider 0).content))
    ∧ (∀ (s : String) (rest : List ContentBlock),
        (provider 0).content = ContentBlock.text s :: rest →
          content_head_text ((provider 0).content) = some s) := by
  refine ⟨?_, ?_, ?_⟩
  · intro tm h
    rw [generate_response_tool_use_eq provider query conversation_history tools tm
      max_tool_rounds h]
    simp only [extract_text_eq_first_text]
  · rw [generate_response_direct_none]
  · intro s rest hc
    rw [hc]
    rfl

/-- Witness for the amended C4: the greedy run ends on a tool-use turn with
no text, so the fallback message is returned; the two-round run returns its
final text; a terminal text-first response is returned verbatim on the
direct path. -/
theorem final_text_extraction_amended_witness :
    (greedy_provider 0).stop_reason = "tool_use"
    ∧ (generate_response greedy_provider "q" none (some ["search_course_content"])
        (some ok_tool_manager) 2).result = some "Unable to generate response."
    ∧ (generate_response two_round_provider "q" none (some ["search_course_content"])
        (some ok_tool_manager) 2).result
      = some "MCP is Model Context Protocol with client-server architecture."
    ∧ (generate_response direct_provider "q" none none none 2).result
      = some "This is a direct answer without using tools." := by
  refine ⟨rfl, ?_, ?_, ?_⟩
  · exact ((final_text_extraction_amended greedy_provider "q" none
      (some ["search_course_content"]) 2).1 ok_tool_manager rfl).trans (by rfl)
  · exact ((final_text_extraction_amended two_round_provider "q" none
      (some ["search_course_content"]) 2).1 ok_tool_manager rfl).trans (by rfl)
  · exact ((final_text_extraction_amended direct_provider "q" none none 2).2.1).trans
      (by rfl)

/-- C7: every provider call of a query carries the fixed behavioral policy
prompt as system content, extended — only when history text is supplied (and
non-empty, by Python truthiness) — by that history under the delimiting
"Previous conversation:" heading; and the initial message list is exactly one
user turn holding the raw query text verbatim. -/
theorem initial_request_construction (provider : Nat → Response) (query : String)
    (conversation_history : Option String) (tools : Option (List String))
    (tool_manager : Option ToolManager) (max_tool_rounds : Nat) :
    (∀ (i : Nat)
        (hi : i < (generate_response provider query conversation_history tools
          tool_manager max_tool_rounds).requests.length),
      (generate_response provider query conversation_history tools tool_manager
        max_tool_rounds).requests[i].system
        = match conversation_history with
          | some h => if h = "" then SYSTEM_PROMPT
              else SYSTEM_PROMPT ++ "\n\nPrevious conversation:\n" ++ h
          | none => SYSTEM_PROMPT)
    ∧ ((generate_response provider query conversation_history tools tool_manager
        max_tool_rounds).requests.map ApiRequest.messages).head?
      = some [⟨"user", MessageContent.text query⟩] := by
  have hsys : ∀ r ∈ (generate_response provider query conversation_history tools
      tool_manager max_tool_rounds).requests,
      r.system = build_system_content conversation_history := by
    match tool_manager with
    | none =>
        rw [generate_response_direct_none]
        intro r hr
        simp only [List.mem_singleton] at hr
        subst hr
        rfl
    | some tm =>
        by_cases h : (provider 0).stop_reason = "tool_use"
        · rw [generate_response_tool_use_eq provider query conversation_history tools
            tm max_tool_rounds h]
          intro r hr
          rcases List.mem_cons.mp hr with hr | hr
          · subst hr
            rfl
          · simp only [tool_path_out] at hr
            exact tool_loop_requests_system provider tm
              (initial_request query conversation_history tools) max_tool_rounds
              max_tool_rounds 1 1 _ _ r hr
        · rw [generate_response_direct_no_tool_use provider query conversation_history
            tools tm max_tool_rounds h]
          intro r hr
          simp only [List.mem_singleton] at hr
          subst hr
          rfl
  constructor
  · intro i hi
    rw [hsys ((generate_response provider query conversation_history tools
      tool_manager max_tool_rounds).requests[i]) (List.getElem_mem hi)]
    cases conversation_history <;> rfl
  · match tool_manager with
    | none =>
        rw [generate_response_direct_none]
        rfl
    | some tm =>
        by_cases h : (provider 0).stop_reason = "tool_use"
        · rw [generate_response_tool_use_eq provider query conversation_history tools
            tm max_tool_rounds h]
          rfl
        · rw [generate_response_direct_no_tool_use provider query conversation_history
            tools tm max_tool_rounds h]
          rfl

/-- Witness for C7 at a concrete run with history supplied: the initial call
carries the prompt plus the delimited history, and the initial message list is
the single raw user turn. -/
theorem initial_request_construction_witness :
    0 < (generate_response direct_provider "Tell me more"
        (some "User: What is MCP?") none none 2).requests.length
    ∧ (generate_response direct_provider "Tell me more"
        (some "User: What is MCP?") none none 2).requests[0].system
      = SYSTEM_PROMPT ++ "\n\nPrevious conversation:\n" ++ "User: What is MCP?"
    ∧ ((generate_response direct_provider "Tell me more"
        (some "User: What is MCP?") none none 2).requests.map
          ApiRequest.messages).head?
      = some [⟨"user", MessageContent.text "Tell me more"⟩] := by
  refine ⟨by decide, ?_, ?_⟩
  · exact ((initial_request_construction direct_provider "Tell me more"
      (some "User: What is MCP?") none none 2).1 0 (by decide)).trans (by rfl)
  · exact (initial_request_construction direct_provider "Tell me more"
      (some "User: What is MCP?") none none 2).2

/-- C9: tool dispatch requires a tool_use stop reason and a supplied tool
manager. With tool_manager None no tool is ever executed and even a tool_use
response is handled by the direct-return path, which returns the `text` field
of the first content segment (presupposing that segment is textual); the
same holds with a manager supplied when the stop reason is not tool_use.
Conversely, when the first response requests tools, a manager is supplied
and at least one round is permitted, the first round's invocations are all
dispatched. -/
theorem dispatch_requires_tool_use_and_manager (provider : Nat → Response)
    (query : String) (conversation_history : Option String)
    (tools : Option (List String)) (max_tool_rounds : Nat) :
    ((generate_response provider query conversation_history tools none
        max_tool_rounds).tool_execs = []
      ∧ (generate_response provider query conversation_history tools none
          max_tool_rounds).result = content_head_text ((provider 0).content))
    ∧ (∀ tm : ToolManager, (provider 0).stop_reason ≠ "tool_use" →
        (generate_response provider query conversation_history tools (some tm)
          max_tool_rounds).tool_execs = []
        ∧ (generate_response provider query conversation_history tools (some tm)
            max_tool_rounds).result = content_head_text ((provider 0).content))
    ∧ (∀ (s : String) (rest : List ContentBlock),
        (provider 0).content = ContentBlock.text s :: rest →
          content_head_text ((provider 0).content) = some s)
    ∧ (∀ tm : ToolManager, (provider 0).stop_reason = "tool_use" →
        1 ≤ max_tool_rounds →
        tool_use_blocks ((provider 0).content)
          <+: (generate_response provider query conversation_history tools (some tm)
            max_tool_rounds).tool_execs) := by
  refine ⟨?_, ?_, ?_, ?_⟩
  · rw [generate_response_direct_none]
    exact ⟨rfl, rfl⟩
  · intro tm h
    rw [generate_response_direct_no_tool_use provider query conversation_history
      tools tm max_tool_rounds h]
    exact ⟨rfl, rfl⟩
  · intro s rest hc
    rw [hc]
    rfl
  · intro tm h hM
    rw [generate_response_tool_use_eq provider query conversation_history tools tm
      max_tool_rounds h]
    simp only [tool_path_out]
    exact tool_loop_execs_first_round provider tm
      (initial_request query conversation_history tools) max_tool_rounds
      max_tool_rounds 1 1 _ _ h hM hM

/-- Witness for C9: the tm-None run executes no tool and returns the direct
text; the tool-path run dispatches the first round's invocation. -/
theorem dispatch_requires_tool_use_and_manager_witness :
    (generate_response direct_provider "q" none none none 2).tool_execs = []
    ∧ (generate_response direct_provider "q" none none none 2).result
      = some "This is a direct answer without using tools."
    ∧ (direct_provider 0).stop_reason ≠ "tool_use"
    ∧ (generate_response direct_provider "q" none (some ["search_course_content"])
        (some ok_tool_manager) 2).tool_execs = []
    ∧ tool_use_blocks ((two_round_provider 0).content)
      <+: (generate_response two_round_provider "q" none
          (some ["search_course_content"]) (some ok_tool_manager) 2).tool_execs := by
  refine ⟨?_, ?_, by decide, ?_, ?_⟩
  · exact (dispatch_requires_tool_use_and_manager direct_provider "q" none none 2).1.1
  · exact ((dispatch_requires_tool_use_and_manager direct_provider "q" none
      none 2).1.2).trans (by rfl)
  · exact ((dispatch_requires_tool_use_and_manager direct_provider "q" none
      (some ["search_course_content"]) 2).2.1 ok_tool_manager (by decide)).1
  · exact (dispatch_requires_tool_use_and_manager two_round_provider "q" none
      (some ["search_course_content"]) 2).2.2.2 ok_tool_manager rfl (by decide)

/-- C10: an empty-string conversation history is treated exactly like an
absent one: the whole observable outcome of the query coincides, and the
system content sent to the provider is exactly the static system prompt with
no "Previous conversation:" heading appended. -/
theorem empty_history_like_absent (provider : Nat → Response) (query : String)
    (tools : Option (List String)) (tool_manager : Option ToolManager)
    (max_tool_rounds : Nat) :
    generate_response provider query (some "") tools tool_manager max_tool_rounds
      = generate_response provider query none tools tool_manager max_tool_rounds
    ∧ build_system_content (some "") = SYSTEM_PROMPT
    ∧ build_system_content none = SYSTEM_PROMPT
    ∧ (initial_request query (some "") tools).system = SYSTEM_PROMPT := by
  exact ⟨rfl, rfl, rfl, rfl⟩

/-- Modelled from the spec: the repository's `search_tools.py` is not among
the sources (only its unit tests are), so the semantic-store result type is
taken from spec section 6 and the tests' `SearchResults` fixture: matched
documents with their metadata (course title, optional lesson number), or an
error. The distances list is omitted: the tool logic never reads it. -/
structure SearchResults where
  documents : List String
  metadata : List (String × Option Nat)
  error : Option String
deriving DecidableEq

/-- A source citation: human-readable label and optional lesson link. -/
structure SourceCitation where
  label : String
  link : Option String
deriving DecidableEq

/-- Modelled from the spec: the label of one matched document,
`<course title> - Lesson <n>`, or just the course title when no lesson
applies (spec section 4.1). -/
def citation_label (course_title : String) (lesson_number : Option Nat) : String :=
  match lesson_number with
  | some n => course_title ++ " - Lesson " ++ toString n
  | none => course_title

/-- Modelled from the spec: the deterministic no-match message, parameterized
by whichever filters were supplied (spec section 4.1 and the empty-result
unit tests). -/
def empty_search_message (course_name : Option String)
    (lesson_number : Option Nat) : String :=
  "No relevant content found"
    ++ (match course_name with
        | some c => " in course '" ++ c ++ "'"
        | none => "")
    ++ (match lesson_number with
        | some n => " in lesson " ++ toString n
        | none => "")
    ++ "."

/-- Modelled from the spec: `CourseSearchTool.execute` (spec section 4.1;
`search_tools.py` is not among the sources). It queries the store with the
given filters; on a store-reported error it returns the error message
verbatim and leaves the source-citation state untouched; on zero matches it
returns the deterministic no-match message; on success it returns the
labeled blocks joined by blank lines and replaces the citation list with one
citation per matched document, in document order, resolving an optional
lesson link via the store. The pair returned is (result text, the tool's
`last_sources` after the call). -/
def course_search_execute
    (store_search : String → Option String → Option Nat → SearchResults)
    (get_lesson_link : String → Nat → Option String)
    (last_sources : List SourceCitation)
    (query : String) (course_name : Option String) (lesson_number : Option Nat) :
    String × List SourceCitation :=
  let results := store_search query course_name lesson_number
  match results.error with
  | some err => (err, last_sources)
  | none =>
      if results.documents.isEmpty then
        (empty_search_message course_name lesson_number, last_sources)
      else
        let entries := results.documents.zip results.metadata
        (String.intercalate "\n\n"
          (entries.map fun e => "[" ++ citation_label e.2.1 e.2.2 ++ "]\n" ++ e.1),
         entries.map fun e =>
           ⟨citation_label e.2.1 e.2.2,
            match e.2.2 with
            | some n => get_lesson_link e.2.1 n
            | none => none⟩)

/-- C8: when the semantic store reports an error, the content-search
execution returns the store's error message verbatim as the result text and
does not touch the source-citation list — in particular a failed search on a
fresh (empty) citation list leaves it empty. -/
theorem search_error_no_citations
    (store_search : String → Option String → Option Nat → SearchResults)
    (get_lesson_link : String → Nat → Option String)
    (last_sources : List SourceCitation) (query : String)
    (course_name : Option String) (lesson_number : Option Nat) (err : String)
    (herr : (store_search query course_name lesson_number).error = some err) :
    course_search_execute store_search get_lesson_link last_sources query
        course_name lesson_number = (err, last_sources)
    ∧ (last_sources = [] →
        (course_search_execute store_search get_lesson_link last_sources query
          course_name lesson_number).2 = []) := by
  have hmain : course_search_execute store_search get_lesson_link last_sources query
      course_name lesson_number = (err, last_sources) := by
    simp only [course_search_execute, herr]
  exact ⟨hmain, fun h0 => by rw [hmain, h0]⟩

/-- Witness for C8 at the error fixture of the unit tests: the unresolvable
course name is surfaced verbatim and the citation list stays empty. -/
theorem search_error_no_citations_witness :
    ((fun (_ : String) (_ : Option String) (_ : Option Nat) =>
        (⟨[], [], some "No course found matching 'Invalid Course'"⟩ : SearchResults))
      "test query" (some "Invalid Course") none).error
      = some "No course found matching 'Invalid Course'"
    ∧ course_search_execute
        (fun _ _ _ => ⟨[], [], some "No course found matching 'Invalid Course'"⟩)
        (fun _ _ => none) [] "test query" (some "Invalid Course") none
      = ("No course found matching 'Invalid Course'", []) :=
  ⟨rfl,
   (search_error_no_citations
      (fun _ _ _ => ⟨[], [], some "No course found matching 'Invalid Course'"⟩)
      (fun _ _ => none) [] "test query" (some "Invalid Course") none
      "No course found matching 'Invalid Course'" rfl).1⟩
